import Mathlib

/-!
Shallow embedding of the simulation core of RhythmRush (src/main.js).

Pixel coordinates, speeds and times are modelled as rationals (JS numbers),
the score and high score as naturals, the lifecycle flags as the three
booleans `running`, `paused`, `gameOver` of the source.  DOM geometry
(`tileHeight()`, `hitLineY()`) is abstracted into a `Geom` parameter; the
wall-clock reading `nowMs()`, the random column and the random id used by
`spawnTile` are injected as explicit arguments; the storage write
`saveHighScore` is reported as an `Option Nat` result.
-/

namespace RhythmRush

/-- COLS from main.js: number of columns. -/
def COLS : Nat := 4

/-- BASE_SPEED from main.js: pixels per second, initial. -/
def BASE_SPEED : ℚ := 220

/-- SPEED_INCREASE_RATE from main.js: speed increase per 10 seconds. -/
def SPEED_INCREASE_RATE : ℚ := 8

/-- INITIAL_SPAWN_INTERVAL from main.js, in milliseconds. -/
def INITIAL_SPAWN_INTERVAL : ℚ := 900

/-- SPAWN_DECAY from main.js: factor applied to the spawn interval at each spawn. -/
def SPAWN_DECAY : ℚ := 98 / 100

/-- HIT_WINDOW from main.js: pixel tolerance around the hit line. -/
def HIT_WINDOW : ℚ := 36

/-- A falling tile: the object literal built in `spawnTile` of main.js,
`{id, col, y, hit}`, together with the `_removed` flag that `doHit`
later sets through a delayed callback. -/
structure Tile where
  id : Nat
  col : Nat
  y : ℚ
  hit : Bool
  removed : Bool
deriving Repr, DecidableEq

/-- Ambient canvas geometry: the values of `tileHeight()` and `hitLineY()`
in main.js, functions of the canvas size only. -/
structure Geom where
  tileH : ℚ
  hitY : ℚ
deriving Repr, DecidableEq

/-- The mutable game state object of main.js (`newState`). -/
structure GameState where
  tiles : List Tile
  score : Nat
  highScore : Nat
  running : Bool
  paused : Bool
  gameOver : Bool
  lastTime : ℚ
  spawnInterval : ℚ
  lastSpawnAt : ℚ
  baseSpeed : ℚ
  elapsed : ℚ
deriving Repr, DecidableEq

/-- newState from main.js; the value returned by `loadHighScore()` is
injected as `loadedHigh`. -/
def newState (loadedHigh : Nat) : GameState :=
  { tiles := []
    score := 0
    highScore := loadedHigh
    running := false
    paused := false
    gameOver := false
    lastTime := 0
    spawnInterval := INITIAL_SPAWN_INTERVAL
    lastSpawnAt := 0
    baseSpeed := BASE_SPEED
    elapsed := 0 }

/-- spawnTile from main.js: pushes a fresh tile above the canvas
(`y = -tileHeight()`) and records the spawn time `nowMs()`.  The random
column and the random id are injected as `col` and `rid`, the wall-clock
reading as `now`. -/
def spawnTile (g : Geom) (rid col : Nat) (now : ℚ) (s : GameState) : GameState :=
  { s with
    tiles := s.tiles ++ [{ id := rid, col := col, y := -g.tileH, hit := false, removed := false }]
    lastSpawnAt := now }

/-- doGameOver from main.js, state part: guards on `state.gameOver`, then
sets `gameOver` and clears `running` (audio, overlay and shake are
presentation glue). -/
def doGameOver (s : GameState) : GameState :=
  if s.gameOver then s else { s with gameOver := true, running := false }

/-- doHit from main.js, scalar part: increments the score, raises the high
score when exceeded and then calls `saveHighScore`; the second component
is the value written by `saveHighScore`, if any.  (The tapped tile's
`hit` flag is set at the call site, see `markFirstHit`; the delayed
`_removed` flag is an external timeout.) -/
def doHit (s : GameState) : GameState × Option Nat :=
  let score := s.score + 1
  if s.highScore < score then
    ({ s with score := score, highScore := score }, some score)
  else
    ({ s with score := score }, none)

/-- The per-tile test of the scan loop in `handlePointer`: same column,
not yet hit, and the vertical center `y + tileHeight()/2` within
HIT_WINDOW of the hit line. -/
def tapMatch (g : Geom) (col : Nat) (t : Tile) : Bool :=
  t.col == col && !t.hit && decide (|t.y + g.tileH / 2 - g.hitY| ≤ HIT_WINDOW)

/-- Setting `tile.hit = true` on the first matching tile of the list, the
mutation `doHit(found)` performs on the tile found by `handlePointer`. -/
def markFirstHit (g : Geom) (col : Nat) : List Tile → List Tile
  | [] => []
  | t :: ts =>
    if tapMatch g col t then { t with hit := true } :: ts
    else t :: markFirstHit g col ts

/-- handlePointer from main.js (the tap command): guards on the lifecycle
flags, scans `state.tiles` in order for the first matching tile, and
either hits it (`doHit`) or ends the game (`doGameOver`).  The column is
injected directly (the pixel-to-column conversion is DOM geometry).  The
second component is the `saveHighScore` write, if any. -/
def handlePointer (g : Geom) (col : Nat) (s : GameState) : GameState × Option Nat :=
  if !s.running || s.paused || s.gameOver then (s, none)
  else
    match s.tiles.find? (tapMatch g col) with
    | some _ => doHit { s with tiles := markFirstHit g col s.tiles }
    | none => (doGameOver s, none)

/-- One tile's motion in the move loop of `update`: `t.y += speed * (dt / 1000)`. -/
def moveTile (speed dt : ℚ) (t : Tile) : Tile :=
  { t with y := t.y + speed * (dt / 1000) }

/-- The accumulated elapsed time after `state.elapsed += dt / 1000`. -/
def stepElapsed (s : GameState) (dt : ℚ) : ℚ :=
  s.elapsed + dt / 1000

/-- The fall speed computed in `update`:
`state.baseSpeed + SPEED_INCREASE_RATE * Math.floor(state.elapsed / 10)`,
with `state.elapsed` already accumulated. -/
def speedAt (s : GameState) (dt : ℚ) : ℚ :=
  s.baseSpeed + SPEED_INCREASE_RATE * ((⌊stepElapsed s dt / 10⌋ : ℤ) : ℚ)

/-- The spawn branch of `update`: when `nowMs() - lastSpawnAt > spawnInterval`,
spawn one tile and decay the interval, floored at 220. -/
def spawnStep (g : Geom) (now : ℚ) (rid col : Nat) (s : GameState) : GameState :=
  if s.spawnInterval < now - s.lastSpawnAt then
    { spawnTile g rid col now s with
      spawnInterval := max 220 (s.spawnInterval * SPAWN_DECAY) }
  else s

/-- The miss test of `update`: an unhit tile whose position has passed the
hit line by more than HIT_WINDOW plus the tile extent. -/
def missed (g : Geom) (t : Tile) : Bool :=
  !t.hit && decide (g.hitY + HIT_WINDOW + g.tileH < t.y)

/-- The tile list after the spawn branch and the move loop of one `update`
call (before the miss check and the cleanup). -/
def postMoveTiles (g : Geom) (dt now : ℚ) (rid col : Nat) (s : GameState) : List Tile :=
  ((spawnStep g now rid col { s with elapsed := stepElapsed s dt }).tiles).map
    (moveTile (speedAt s dt) dt)

/-- update from main.js (the advance command): lifecycle guard, elapsed
accumulation, speed computation, spawn branch, move loop, miss check
(game over and early return on the first miss, skipping the cleanup),
and the cleanup filter on `_removed`. -/
def update (g : Geom) (dt now : ℚ) (rid col : Nat) (s : GameState) : GameState :=
  if !s.running || s.paused || s.gameOver then s
  else
    let s2 := spawnStep g now rid col { s with elapsed := stepElapsed s dt }
    let tiles2 := s2.tiles.map (moveTile (speedAt s dt) dt)
    if tiles2.any (missed g) then doGameOver { s2 with tiles := tiles2 }
    else { s2 with tiles := tiles2.filter (fun t => !t.removed) }

/-- pauseToggle from main.js: guarded on `gameOver`/`running`, flips
`paused`; on resume it also clears `lastTime` (the clock reset). -/
def pauseToggle (s : GameState) : GameState :=
  if s.gameOver || !s.running then s
  else if s.paused then { s with paused := false, lastTime := 0 }
  else { s with paused := true }

/-- startGame from main.js: a fresh `newState` made Running, with the
first spawn delayed by 120 ms past the current wall clock. -/
def startGame (loadedHigh : Nat) (now : ℚ) : GameState :=
  { newState loadedHigh with
    running := true
    gameOver := false
    paused := false
    lastTime := 0
    lastSpawnAt := now + 120
    spawnInterval := INITIAL_SPAWN_INTERVAL }

/-- A session command, with all injected readings made explicit. -/
inductive Cmd where
  | advance (dt now : ℚ) (rid col : Nat)
  | tap (col : Nat)
  | pause
  | start (loadedHigh : Nat) (now : ℚ)
deriving Repr

/-- One command applied to the state (events and storage writes dropped). -/
def stepCmd (g : Geom) (c : Cmd) (s : GameState) : GameState :=
  match c with
  | .advance dt now rid col => update g dt now rid col s
  | .tap col => (handlePointer g col s).1
  | .pause => pauseToggle s
  | .start loadedHigh now => startGame loadedHigh now

/-- States reachable from a fresh `newState` by session commands. -/
inductive Reachable (g : Geom) : GameState → Prop where
  | init (loadedHigh : Nat) : Reachable g (newState loadedHigh)
  | step (c : Cmd) (s : GameState) : Reachable g s → Reachable g (stepCmd g c s)

/-- The Idle lifecycle state: no run in progress, no game over shown. -/
def IdleS (s : GameState) : Prop := s.running = false ∧ s.gameOver = false

/-- The Running lifecycle state. -/
def RunningS (s : GameState) : Prop :=
  s.running = true ∧ s.paused = false ∧ s.gameOver = false

/-- The Paused lifecycle state. -/
def PausedS (s : GameState) : Prop :=
  s.running = true ∧ s.paused = true ∧ s.gameOver = false

/-- The GameOver lifecycle state. -/
def GameOverS (s : GameState) : Prop := s.gameOver = true

/-- The flag invariant the code maintains: paused only while running,
and game over only with running and paused both cleared. -/
def FlagInv (s : GameState) : Prop :=
  (s.paused = true → s.running = true) ∧
  (s.gameOver = true → s.running = false ∧ s.paused = false)

/-- A sequence of taps, collecting the `saveHighScore` writes in order. -/
def tapRun (g : Geom) (cols : List Nat) (s : GameState) : GameState × List Nat :=
  match cols with
  | [] => (s, [])
  | c :: cs =>
    let r := handlePointer g c s
    let rest := tapRun g cs r.1
    (rest.1, r.2.toList ++ rest.2)

/-! Concrete fixtures used to instantiate the theorems. -/

/-- A concrete canvas geometry: tile extent 100 px, hit line at 300 px. -/
def G0 : Geom := { tileH := 100, hitY := 300 }

/-- A fresh session switched to Running, no tiles. -/
def sRun : GameState := { newState 0 with running := true }

/-- A tile in column 2 whose center 250 + 50 sits exactly on the hit line. -/
def tile0 : Tile := { id := 1, col := 2, y := 250, hit := false, removed := false }

/-- Running session holding just `tile0`. -/
def sTap : GameState := { sRun with tiles := [tile0] }

/-- Five hittable tiles stacked in column 0, centers on the hit line. -/
def fiveTiles : List Tile :=
  [{ id := 1, col := 0, y := 250, hit := false, removed := false },
   { id := 2, col := 0, y := 250, hit := false, removed := false },
   { id := 3, col := 0, y := 250, hit := false, removed := false },
   { id := 4, col := 0, y := 250, hit := false, removed := false },
   { id := 5, col := 0, y := 250, hit := false, removed := false }]

/-- Running session with loaded best score 3 and five hittable tiles. -/
def s43 : GameState := { newState 3 with running := true, tiles := fiveTiles }

/-- An unhit tile far past the hit line (500 > 300 + 36 + 100). -/
def farTile : Tile := { id := 9, col := 1, y := 500, hit := false, removed := false }

/-- Running session with the unhit `farTile`. -/
def sMiss : GameState := { sRun with tiles := [farTile] }

/-- Running session with `farTile` already hit. -/
def sHitFar : GameState := { sRun with tiles := [{ farTile with hit := true }] }

/-- A paused running session. -/
def sPaused : GameState := { sRun with paused := true }

/-! Structural lemmas about the operations. -/

lemma spawnStep_running (g : Geom) (now : ℚ) (rid col : Nat) (s : GameState) :
    (spawnStep g now rid col s).running = s.running := by
  unfold spawnStep spawnTile; split <;> rfl

lemma spawnStep_paused (g : Geom) (now : ℚ) (rid col : Nat) (s : GameState) :
    (spawnStep g now rid col s).paused = s.paused := by
  unfold spawnStep spawnTile; split <;> rfl

lemma spawnStep_gameOver (g : Geom) (now : ℚ) (rid col : Nat) (s : GameState) :
    (spawnStep g now rid col s).gameOver = s.gameOver := by
  unfold spawnStep spawnTile; split <;> rfl

lemma spawnStep_score (g : Geom) (now : ℚ) (rid col : Nat) (s : GameState) :
    (spawnStep g now rid col s).score = s.score := by
  unfold spawnStep spawnTile; split <;> rfl

lemma spawnStep_highScore (g : Geom) (now : ℚ) (rid col : Nat) (s : GameState) :
    (spawnStep g now rid col s).highScore = s.highScore := by
  unfold spawnStep spawnTile; split <;> rfl

lemma spawnStep_elapsed (g : Geom) (now : ℚ) (rid col : Nat) (s : GameState) :
    (spawnStep g now rid col s).elapsed = s.elapsed := by
  unfold spawnStep spawnTile; split <;> rfl

lemma spawnStep_baseSpeed (g : Geom) (now : ℚ) (rid col : Nat) (s : GameState) :
    (spawnStep g now rid col s).baseSpeed = s.baseSpeed := by
  unfold spawnStep spawnTile; split <;> rfl

lemma spawnStep_spawnInterval (g : Geom) (now : ℚ) (rid col : Nat) (s : GameState) :
    (spawnStep g now rid col s).spawnInterval =
      if s.spawnInterval < now - s.lastSpawnAt then max 220 (s.spawnInterval * SPAWN_DECAY)
      else s.spawnInterval := by
  unfold spawnStep spawnTile; split <;> simp_all

lemma doGameOver_gameOver (s : GameState) : (doGameOver s).gameOver = true := by
  unfold doGameOver; split <;> simp_all

lemma doGameOver_eq (s : GameState) (h : s.gameOver = false) :
    doGameOver s = { s with gameOver := true, running := false } := by
  unfold doGameOver; simp [h]

lemma doGameOver_score (s : GameState) : (doGameOver s).score = s.score := by
  unfold doGameOver; split <;> rfl

lemma doGameOver_tiles (s : GameState) : (doGameOver s).tiles = s.tiles := by
  unfold doGameOver; split <;> rfl

lemma doGameOver_elapsed (s : GameState) : (doGameOver s).elapsed = s.elapsed := by
  unfold doGameOver; split <;> rfl

lemma doGameOver_baseSpeed (s : GameState) : (doGameOver s).baseSpeed = s.baseSpeed := by
  unfold doGameOver; split <;> rfl

lemma doGameOver_spawnInterval (s : GameState) : (doGameOver s).spawnInterval = s.spawnInterval := by
  unfold doGameOver; split <;> rfl

lemma doHit_fst_score (s : GameState) : (doHit s).1.score = s.score + 1 := by
  simp only [doHit]; split <;> rfl

lemma doHit_fst_tiles (s : GameState) : (doHit s).1.tiles = s.tiles := by
  simp only [doHit]; split <;> rfl

lemma doHit_fst_running (s : GameState) : (doHit s).1.running = s.running := by
  simp only [doHit]; split <;> rfl

lemma doHit_fst_paused (s : GameState) : (doHit s).1.paused = s.paused := by
  simp only [doHit]; split <;> rfl

lemma doHit_fst_gameOver (s : GameState) : (doHit s).1.gameOver = s.gameOver := by
  simp only [doHit]; split <;> rfl

lemma update_noop (g : Geom) (dt now : ℚ) (rid col : Nat) (s : GameState)
    (h : s.running = false ∨ s.paused = true ∨ s.gameOver = true) :
    update g dt now rid col s = s := by
  unfold update; rcases h with h | h | h <;> simp [h]

lemma update_run (g : Geom) (dt now : ℚ) (rid col : Nat) (s : GameState)
    (hrun : s.running = true) (hp : s.paused = false) (hgo : s.gameOver = false) :
    update g dt now rid col s =
      if (postMoveTiles g dt now rid col s).any (missed g) then
        doGameOver { spawnStep g now rid col { s with elapsed := stepElapsed s dt } with
          tiles := postMoveTiles g dt now rid col s }
      else
        { spawnStep g now rid col { s with elapsed := stepElapsed s dt } with
          tiles := (postMoveTiles g dt now rid col s).filter (fun t => !t.removed) } := by
  unfold update postMoveTiles; simp [hrun, hp, hgo]

lemma handlePointer_noop (g : Geom) (col : Nat) (s : GameState)
    (h : s.running = false ∨ s.paused = true ∨ s.gameOver = true) :
    handlePointer g col s = (s, none) := by
  unfold handlePointer; rcases h with h | h | h <;> simp [h]

lemma handlePointer_run (g : Geom) (col : Nat) (s : GameState)
    (hrun : s.running = true) (hp : s.paused = false) (hgo : s.gameOver = false) :
    handlePointer g col s =
      match s.tiles.find? (tapMatch g col) with
      | some _ => doHit { s with tiles := markFirstHit g col s.tiles }
      | none => (doGameOver s, none) := by
  unfold handlePointer; simp [hrun, hp, hgo]

/-- The tile found by the scan of `handlePointer` is the first match, and
`markFirstHit` flips exactly its `hit` flag. -/
lemma markFirstHit_of_find? (g : Geom) (col : Nat) :
    ∀ (l : List Tile) (t : Tile), l.find? (tapMatch g col) = some t →
      ∃ l1 l2, l = l1 ++ t :: l2 ∧
        markFirstHit g col l = l1 ++ { t with hit := true } :: l2 ∧
        ∀ u ∈ l1, tapMatch g col u = false := by
  intro l
  induction l with
  | nil => intro t h; simp [List.find?] at h
  | cons a l ih =>
    intro t h
    by_cases ha : tapMatch g col a
    · rw [List.find?_cons_of_pos _ ha] at h
      obtain rfl : a = t := by injection h
      exact ⟨[], l, rfl, by simp [markFirstHit, ha], by simp⟩
    · rw [List.find?_cons_of_neg _ (by simpa using ha)] at h
      obtain ⟨l1, l2, hl, hm, hall⟩ := ih t h
      refine ⟨a :: l1, l2, by simp [hl], ?_, ?_⟩
      · simp only [markFirstHit, if_neg ha, hm]; simp
      · intro u hu
        rcases List.mem_cons.mp hu with rfl | hu
        · simpa using ha
        · exact hall u hu

/-- C1: while Running, the score changes only via a successful tap: a tap
that finds the first unhit tile in the tapped column whose vertical center
lies within the 36 px hit tolerance of the hit line marks exactly that tile
hit and increments the score by exactly 1; a tap that finds none, an
advance call, and a pause toggle leave the score unchanged, so the score is
monotonically non-decreasing within a session. -/
theorem C1_tap_scoring (g : Geom) (col : Nat) (dt now : ℚ) (rid col2 : Nat) (s : GameState) :
    (∀ t, s.running = true → s.paused = false → s.gameOver = false →
        s.tiles.find? (tapMatch g col) = some t →
        (handlePointer g col s).1.score = s.score + 1 ∧
        ∃ l1 l2, s.tiles = l1 ++ t :: l2 ∧
          (handlePointer g col s).1.tiles = l1 ++ { t with hit := true } :: l2 ∧
          ∀ u ∈ l1, tapMatch g col u = false) ∧
    s.score ≤ (handlePointer g col s).1.score ∧
    (s.tiles.find? (tapMatch g col) = none → (handlePointer g col s).1.score = s.score) ∧
    (update g dt now rid col2 s).score = s.score ∧
    (pauseToggle s).score = s.score := by
  have hscore_cases :
      (handlePointer g col s).1.score = s.score ∨
      (handlePointer g col s).1.score = s.score + 1 := by
    by_cases hrun : s.running = true
    · by_cases hp : s.paused = true
      · left; rw [handlePointer_noop g col s (Or.inr (Or.inl hp))]
      · by_cases hgo : s.gameOver = true
        · left; rw [handlePointer_noop g col s (Or.inr (Or.inr hgo))]
        · rw [handlePointer_run g col s hrun (by simpa using hp) (by simpa using hgo)]
          cases hfind : s.tiles.find? (tapMatch g col) with
          | some t => right; simp [hfind, doHit_fst_score]
          | none => left; simp [hfind, doGameOver_score]
    · left; rw [handlePointer_noop g col s (Or.inl (by simpa using hrun))]
  refine ⟨?_, ?_, ?_, ?_, ?_⟩
  · intro t hrun hp hgo hfind
    rw [handlePointer_run g col s hrun hp hgo]
    obtain ⟨l1, l2, hl, hm, hall⟩ := markFirstHit_of_find? g col s.tiles t hfind
    refine ⟨?_, l1, l2, hl, ?_, hall⟩
    · simp [hfind, doHit_fst_score]
    · simp [hfind, doHit_fst_tiles, hm]
  · rcases hscore_cases with h | h <;> omega
  · intro hnone
    by_cases hrun : s.running = true
    · by_cases hp : s.paused = true
      · rw [handlePointer_noop g col s (Or.inr (Or.inl hp))]
      · by_cases hgo : s.gameOver = true
        · rw [handlePointer_noop g col s (Or.inr (Or.inr hgo))]
        · rw [handlePointer_run g col s hrun (by simpa using hp) (by simpa using hgo)]
          simp [hnone, doGameOver_score]
    · rw [handlePointer_noop g col s (Or.inl (by simpa using hrun))]
  · by_cases hrun : s.running = true
    · by_cases hp : s.paused = true
      · rw [update_noop g dt now rid col2 s (Or.inr (Or.inl hp))]
      · by_cases hgo : s.gameOver = true
        · rw [update_noop g dt now rid col2 s (Or.inr (Or.inr hgo))]
        · rw [update_run g dt now rid col2 s hrun (by simpa using hp) (by simpa using hgo)]
          split
          · simp [doGameOver_score, spawnStep_score]
          · simp [spawnStep_score]
    · rw [update_noop g dt now rid col2 s (Or.inl (by simpa using hrun))]
  · unfold pauseToggle; split
    · rfl
    · split <;> rfl

/-- C1 witness: tapping column 2 of the concrete one-tile session hits the
tile and moves the score from 0 to 1. -/
theorem C1_tap_scoring_witness :
    (handlePointer G0 2 sTap).1.score = sTap.score + 1 ∧ sTap.score = 0 :=
  ⟨((C1_tap_scoring G0 2 0 0 0 0 sTap).1 tile0 rfl rfl rfl
      (by norm_num [sTap, sRun, newState, List.find?, tapMatch, tile0, G0, HIT_WINDOW])).1,
   rfl⟩

/-- C2: while Running, a tap in a column with no unhit tile within the hit
tolerance of the hit line ends the session (gameOver set, running cleared)
and leaves the score and the tile collection unchanged, with no storage
write. -/
theorem C2_mistap_gameover (g : Geom) (col : Nat) (s : GameState)
    (hrun : s.running = true) (hp : s.paused = false) (hgo : s.gameOver = false)
    (hnone : s.tiles.find? (tapMatch g col) = none) :
    (handlePointer g col s).1.gameOver = true ∧
    (handlePointer g col s).1.running = false ∧
    (handlePointer g col s).1.score = s.score ∧
    (handlePointer g col s).1.tiles = s.tiles ∧
    (handlePointer g col s).2 = none := by
  rw [handlePointer_run g col s hrun hp hgo]
  simp [hnone, doGameOver_eq s hgo]

/-- C2 witness: tapping the empty running session ends it with score still 0. -/
theorem C2_mistap_gameover_witness :
    (handlePointer G0 0 sRun).1.gameOver = true ∧
    (handlePointer G0 0 sRun).1.running = false ∧
    (handlePointer G0 0 sRun).1.score = sRun.score ∧
    (handlePointer G0 0 sRun).1.tiles = sRun.tiles ∧
    (handlePointer G0 0 sRun).2 = none :=
  C2_mistap_gameover G0 0 sRun rfl rfl rfl rfl

/-- C3: while Running, if after the spawn branch and the motion step some
unhit tile sits more than HIT_WINDOW plus the tile extent past the hit
line, the same advance call ends the session, and the remaining processing
is skipped: the resulting tile list is exactly the post-motion list, with
the cleanup filter on the `_removed` flag not applied. -/
theorem C3_miss_ends_advance (g : Geom) (dt now : ℚ) (rid col : Nat) (s : GameState)
    (hrun : s.running = true) (hp : s.paused = false) (hgo : s.gameOver = false)
    (hmiss : ∃ t ∈ postMoveTiles g dt now rid col s,
      t.hit = false ∧ g.hitY + HIT_WINDOW + g.tileH < t.y) :
    (update g dt now rid col s).gameOver = true ∧
    (update g dt now rid col s).running = false ∧
    (update g dt now rid col s).tiles = postMoveTiles g dt now rid col s := by
  rw [update_run g dt now rid col s hrun hp hgo]
  have hany : (postMoveTiles g dt now rid col s).any (missed g) = true := by
    rw [List.any_eq_true]
    obtain ⟨t, ht, hhit, hy⟩ := hmiss
    exact ⟨t, ht, by simp [missed, hhit, hy]⟩
  rw [if_pos hany]
  rw [doGameOver_eq _ (by simp [spawnStep_gameOver, hgo])]
  exact ⟨rfl, rfl, rfl⟩

/-- C3 witness: an advance over the session holding the unhit `farTile`
(500 px, past 300 + 36 + 100) ends the run and keeps the unfiltered
post-motion tile list. -/
theorem C3_miss_ends_advance_witness :
    (update G0 0 0 0 0 sMiss).gameOver = true ∧
    (update G0 0 0 0 0 sMiss).running = false ∧
    (update G0 0 0 0 0 sMiss).tiles = postMoveTiles G0 0 0 0 0 sMiss :=
  C3_miss_ends_advance G0 0 0 0 0 sMiss rfl rfl rfl
    (by
      refine ⟨{ farTile with y := farTile.y + speedAt sMiss 0 * (0 / 1000) }, ?_, rfl, ?_⟩
      · norm_num [postMoveTiles, spawnStep, spawnTile, stepElapsed, moveTile, sMiss, sRun,
          newState, farTile, INITIAL_SPAWN_INTERVAL]
      · norm_num [farTile, G0, HIT_WINDOW])

/-- C4 counterexample: with loaded best score 3, a run of five successful
taps reaches score 5 and best score 5 but issues two `saveHighScore`
writes (values 4 and 5), one at every hit that raises the best — not
exactly one write at the overtaking hit only. -/
theorem C4_two_writes_counterexample :
    s43.highScore = 3 ∧ s43.score = 0 ∧
    (tapRun G0 [0, 0, 0, 0, 0] s43).1.score = 5 ∧
    (tapRun G0 [0, 0, 0, 0, 0] s43).1.highScore = 5 ∧
    (tapRun G0 [0, 0, 0, 0, 0] s43).2 = [4, 5] ∧
    ((tapRun G0 [0, 0, 0, 0, 0] s43).2).length ≠ 1 := by
  norm_num [tapRun, handlePointer, tapMatch, markFirstHit, doHit, s43, fiveTiles,
    sRun, newState, G0, HIT_WINDOW, Option.toList]

/-- C4 amended: every hit increments the score by 1 and raises the best
score to the maximum of the old best and the new score, and a
`saveHighScore` write is issued exactly when the new score exceeds the old
best — hence one write at every best-raising hit (from best 3 to score 5:
writes 4 and 5), not a single write at the overtaking hit only. -/
theorem C4_save_on_every_raise (s : GameState) :
    (doHit s).1.score = s.score + 1 ∧
    (doHit s).1.highScore = max s.highScore (s.score + 1) ∧
    ((doHit s).2 = some (s.score + 1) ↔ s.highScore < s.score + 1) ∧
    ((doHit s).2 = none ↔ s.score + 1 ≤ s.highScore) := by
  simp only [doHit]
  by_cases h : s.highScore < s.score + 1
  · simp [h, Nat.max_eq_right (Nat.le_of_lt h)]
  · simp [h, Nat.max_eq_left (by omega : s.score + 1 ≤ s.highScore)]
    omega

lemma update_elapsed_run (g : Geom) (dt now : ℚ) (rid col : Nat) (s : GameState)
    (hrun : s.running = true) (hp : s.paused = false) (hgo : s.gameOver = false) :
    (update g dt now rid col s).elapsed = stepElapsed s dt := by
  rw [update_run g dt now rid col s hrun hp hgo]
  split <;> simp [doGameOver_elapsed, spawnStep_elapsed]

lemma update_baseSpeed_run (g : Geom) (dt now : ℚ) (rid col : Nat) (s : GameState)
    (hrun : s.running = true) (hp : s.paused = false) (hgo : s.gameOver = false) :
    (update g dt now rid col s).baseSpeed = s.baseSpeed := by
  rw [update_run g dt now rid col s hrun hp hgo]
  split <;> simp [doGameOver_baseSpeed, spawnStep_baseSpeed]

lemma update_spawnInterval_run (g : Geom) (dt now : ℚ) (rid col : Nat) (s : GameState)
    (hrun : s.running = true) (hp : s.paused = false) (hgo : s.gameOver = false) :
    (update g dt now rid col s).spawnInterval =
      if s.spawnInterval < now - s.lastSpawnAt then max 220 (s.spawnInterval * SPAWN_DECAY)
      else s.spawnInterval := by
  rw [update_run g dt now rid col s hrun hp hgo]
  split <;> simp [doGameOver_spawnInterval, spawnStep_spawnInterval]

/-- C5: while Running, the fall speed used by an advance call equals
base speed plus rate times the floor of the elapsed seconds over 10, with
base 220 and rate 8; with a non-negative next delta it is non-decreasing
from one advance call to the next. -/
theorem C5_fall_speed (g : Geom) (dt dt2 now : ℚ) (rid col : Nat) (s : GameState)
    (hbase : s.baseSpeed = 220) (hrun : s.running = true) (hp : s.paused = false)
    (hgo : s.gameOver = false) (hdt2 : 0 ≤ dt2) :
    speedAt s dt = 220 + 8 * ((⌊(s.elapsed + dt / 1000) / 10⌋ : ℤ) : ℚ) ∧
    (update g dt now rid col s).elapsed = s.elapsed + dt / 1000 ∧
    (update g dt now rid col s).baseSpeed = 220 ∧
    speedAt s dt ≤ speedAt (update g dt now rid col s) dt2 := by
  have helapsed := update_elapsed_run g dt now rid col s hrun hp hgo
  have hbase2 := update_baseSpeed_run g dt now rid col s hrun hp hgo
  have hmono : speedAt s dt ≤ speedAt (update g dt now rid col s) dt2 := by
    unfold speedAt stepElapsed
    rw [helapsed, hbase2]
    unfold stepElapsed
    have hq : (0 : ℚ) ≤ dt2 / 1000 := div_nonneg hdt2 (by norm_num)
    have hfl : (⌊(s.elapsed + dt / 1000) / 10⌋ : ℤ) ≤
        ⌊(s.elapsed + dt / 1000 + dt2 / 1000) / 10⌋ := by
      apply Int.floor_mono
      have h10 : (0 : ℚ) < 10 := by norm_num
      exact (div_le_div_iff_of_pos_right h10).mpr (by linarith)
    have hflq : ((⌊(s.elapsed + dt / 1000) / 10⌋ : ℤ) : ℚ) ≤
        ((⌊(s.elapsed + dt / 1000 + dt2 / 1000) / 10⌋ : ℤ) : ℚ) := by exact_mod_cast hfl
    have h8 : (0 : ℚ) ≤ SPEED_INCREASE_RATE := by norm_num [SPEED_INCREASE_RATE]
    nlinarith [mul_le_mul_of_nonneg_left hflq h8]
  refine ⟨?_, ?_, ?_, hmono⟩
  · unfold speedAt stepElapsed
    rw [hbase]
    norm_num [SPEED_INCREASE_RATE]
  · rw [helapsed]; rfl
  · rw [hbase2, hbase]

/-- C5 witness: one advance of 16 ms over the fresh running session keeps
speed 220 and accumulates elapsed time. -/
theorem C5_fall_speed_witness :
    speedAt sRun 16 = 220 + 8 * ((⌊(sRun.elapsed + 16 / 1000) / 10⌋ : ℤ) : ℚ) ∧
    (update G0 16 0 0 0 sRun).elapsed = sRun.elapsed + 16 / 1000 ∧
    (update G0 16 0 0 0 sRun).baseSpeed = 220 ∧
    speedAt sRun 16 ≤ speedAt (update G0 16 0 0 0 sRun) 16 :=
  C5_fall_speed G0 16 16 0 0 0 sRun rfl rfl rfl rfl (by norm_num)

/-- C6: while Running, an advance call that spawns replaces the spawn
interval by max 220 (interval times 0.98) while one that does not spawn
leaves it unchanged; when the interval is at least the 220 ms floor the
new interval never exceeds the old and never drops below the floor, so
the interval is non-increasing across spawns, clamped at 220. -/
theorem C6_spawn_interval (g : Geom) (dt now : ℚ) (rid col : Nat) (s : GameState)
    (hrun : s.running = true) (hp : s.paused = false) (hgo : s.gameOver = false)
    (hmin : 220 ≤ s.spawnInterval) :
    (s.spawnInterval < now - s.lastSpawnAt →
      (update g dt now rid col s).spawnInterval = max 220 (s.spawnInterval * SPAWN_DECAY)) ∧
    (¬ s.spawnInterval < now - s.lastSpawnAt →
      (update g dt now rid col s).spawnInterval = s.spawnInterval) ∧
    (update g dt now rid col s).spawnInterval ≤ s.spawnInterval ∧
    220 ≤ (update g dt now rid col s).spawnInterval := by
  have h := update_spawnInterval_run g dt now rid col s hrun hp hgo
  have hdecay : max 220 (s.spawnInterval * SPAWN_DECAY) ≤ s.spawnInterval := by
    apply max_le hmin
    have h0 : (0 : ℚ) ≤ s.spawnInterval := by linarith
    calc s.spawnInterval * SPAWN_DECAY ≤ s.spawnInterval * 1 := by
          apply mul_le_mul_of_nonneg_left (by norm_num [SPAWN_DECAY]) h0
      _ = s.spawnInterval := mul_one _
  refine ⟨?_, ?_, ?_, ?_⟩
  · intro hc; rw [h, if_pos hc]
  · intro hc; rw [h, if_neg hc]
  · rw [h]; split
    · exact hdecay
    · exact le_refl _
  · rw [h]; split
    · exact le_max_left _ _
    · exact hmin

/-- C6 witness: the fresh running session (interval 900) spawning at wall
clock 1000 decays the interval to max 220 (900 times 0.98) = 882. -/
theorem C6_spawn_interval_witness :
    (update G0 16 1000 0 0 sRun).spawnInterval = max 220 (sRun.spawnInterval * SPAWN_DECAY) ∧
    (update G0 16 1000 0 0 sRun).spawnInterval ≤ sRun.spawnInterval ∧
    220 ≤ (update G0 16 1000 0 0 sRun).spawnInterval := by
  have h := C6_spawn_interval G0 16 1000 0 0 sRun rfl rfl rfl
    (by norm_num [sRun, newState, INITIAL_SPAWN_INTERVAL])
  exact ⟨h.1 (by norm_num [sRun, newState, INITIAL_SPAWN_INTERVAL]), h.2.2.1, h.2.2.2⟩

lemma guard_dichotomy (s : GameState) :
    (s.running = false ∨ s.paused = true ∨ s.gameOver = true) ∨
    (s.running = true ∧ s.paused = false ∧ s.gameOver = false) := by
  cases hr : s.running <;> cases hp : s.paused <;> cases hg : s.gameOver <;> simp

lemma update_score_any (g : Geom) (dt now : ℚ) (rid col : Nat) (s : GameState) :
    (update g dt now rid col s).score = s.score := by
  rcases guard_dichotomy s with hfail | ⟨hrun, hp, hgo⟩
  · rw [update_noop g dt now rid col s hfail]
  · rw [update_run g dt now rid col s hrun hp hgo]
    split <;> simp [doGameOver_score, spawnStep_score]

lemma update_baseSpeed_any (g : Geom) (dt now : ℚ) (rid col : Nat) (s : GameState) :
    (update g dt now rid col s).baseSpeed = s.baseSpeed := by
  rcases guard_dichotomy s with hfail | ⟨hrun, hp, hgo⟩
  · rw [update_noop g dt now rid col s hfail]
  · rw [update_run g dt now rid col s hrun hp hgo]
    split <;> simp [doGameOver_baseSpeed, spawnStep_baseSpeed]

/-- C7 counterexample: two advance calls over the same state with the same
injected delta (16 ms) and the same injected random choices, but different
wall-clock readings, disagree: at wall clock 1000 the spawn check fires
and a tile appears, at wall clock 500 it does not — so the spawning
decision depends on the wall-clock reading, not only on the injected
deltas. -/
theorem C7_wall_clock_counterexample :
    (update G0 16 1000 7 2 sRun).tiles.length = 1 ∧
    (update G0 16 500 7 2 sRun).tiles.length = 0 ∧
    update G0 16 1000 7 2 sRun ≠ update G0 16 500 7 2 sRun := by
  have h1 : (update G0 16 1000 7 2 sRun).tiles.length = 1 := by
    norm_num [update, spawnStep, spawnTile, stepElapsed, speedAt, sRun, newState, G0,
      INITIAL_SPAWN_INTERVAL, SPAWN_DECAY, BASE_SPEED, SPEED_INCREASE_RATE, HIT_WINDOW,
      missed, moveTile, doGameOver]
  have h2 : (update G0 16 500 7 2 sRun).tiles.length = 0 := by
    norm_num [update, spawnStep, spawnTile, stepElapsed, speedAt, sRun, newState, G0,
      INITIAL_SPAWN_INTERVAL, SPAWN_DECAY, BASE_SPEED, SPEED_INCREASE_RATE, HIT_WINDOW,
      missed, moveTile, doGameOver]
  refine ⟨h1, h2, fun h => ?_⟩
  rw [h, h2] at h1
  omega

/-- C7 amended: the difficulty and score stepping of an advance call is
deterministic given the injected delta alone — elapsed time, score and
base speed do not depend on the wall-clock reading or on the injected
random column and id, and the fall speed is a function of the state and
the delta only — while the tile spawning decision additionally reads the
wall clock. -/
theorem C7_delta_determinism (g : Geom) (dt now now2 : ℚ) (rid rid2 col col2 : Nat)
    (s : GameState) :
    (update g dt now rid col s).elapsed = (update g dt now2 rid2 col2 s).elapsed ∧
    (update g dt now rid col s).score = (update g dt now2 rid2 col2 s).score ∧
    (update g dt now rid col s).baseSpeed = (update g dt now2 rid2 col2 s).baseSpeed ∧
    speedAt s dt = s.baseSpeed + SPEED_INCREASE_RATE * ((⌊(s.elapsed + dt / 1000) / 10⌋ : ℤ) : ℚ) := by
  refine ⟨?_, ?_, ?_, rfl⟩
  · rcases guard_dichotomy s with hfail | ⟨hrun, hp, hgo⟩
    · rw [update_noop g dt now rid col s hfail, update_noop g dt now2 rid2 col2 s hfail]
    · rw [update_elapsed_run g dt now rid col s hrun hp hgo,
        update_elapsed_run g dt now2 rid2 col2 s hrun hp hgo]
  · rw [update_score_any, update_score_any]
  · rw [update_baseSpeed_any, update_baseSpeed_any]

/-- C8 counterexample: the paused running session ties the pause command to
`pauseToggle`, and invoking it while already Paused is not a no-op: it
clears the paused flag (a resume). -/
theorem C8_pause_toggle_counterexample :
    sPaused.running = true ∧ sPaused.paused = true ∧ sPaused.gameOver = false ∧
    pauseToggle sPaused ≠ sPaused ∧ (pauseToggle sPaused).paused = false := by
  norm_num [pauseToggle, sPaused, sRun, newState]

/-- C8 amended: advance while Paused, Idle or GameOver is a strict no-op,
tap outside Running (Idle, Paused or GameOver) is a strict no-op with no
storage write, and the pause toggle is a no-op while Idle or GameOver; but
invoked while already Paused it is not a no-op — it resumes, clearing the
paused flag and resetting the frame clock. -/
theorem C8_forbidden_noop (g : Geom) (dt now : ℚ) (rid col col2 : Nat) (s : GameState) :
    (s.running = false ∨ s.paused = true ∨ s.gameOver = true →
      update g dt now rid col s = s) ∧
    (s.running = false ∨ s.paused = true ∨ s.gameOver = true →
      handlePointer g col2 s = (s, none)) ∧
    (s.running = false ∨ s.gameOver = true → pauseToggle s = s) ∧
    (s.running = true → s.gameOver = false → s.paused = true →
      pauseToggle s = { s with paused := false, lastTime := 0 }) := by
  refine ⟨update_noop g dt now rid col s, handlePointer_noop g col2 s, ?_, ?_⟩
  · intro h
    unfold pauseToggle
    rcases h with h | h <;> simp [h]
  · intro hrun hgo hpause
    unfold pauseToggle
    simp [hrun, hgo, hpause]

/-- C8 witness: on the concrete paused session, advance and tap are strict
no-ops while the pause toggle resumes. -/
theorem C8_forbidden_noop_witness :
    update G0 0 0 0 0 sPaused = sPaused ∧
    handlePointer G0 0 sPaused = (sPaused, none) ∧
    pauseToggle sPaused = { sPaused with paused := false, lastTime := 0 } :=
  ⟨(C8_forbidden_noop G0 0 0 0 0 0 sPaused).1 (Or.inr (Or.inl rfl)),
   (C8_forbidden_noop G0 0 0 0 0 0 sPaused).2.1 (Or.inr (Or.inl rfl)),
   (C8_forbidden_noop G0 0 0 0 0 0 sPaused).2.2.2 rfl rfl rfl⟩

lemma update_flagInv (g : Geom) (dt now : ℚ) (rid col : Nat) (s : GameState)
    (h : FlagInv s) : FlagInv (update g dt now rid col s) := by
  rcases guard_dichotomy s with hfail | ⟨hrun, hp, hgo⟩
  · rwa [update_noop g dt now rid col s hfail]
  · rw [update_run g dt now rid col s hrun hp hgo]
    split
    · rw [doGameOver_eq _ (by simp [spawnStep_gameOver, hgo])]
      simp [FlagInv, spawnStep_paused, hp]
    · simp [FlagInv, spawnStep_paused, spawnStep_running, spawnStep_gameOver, hp, hgo, hrun]

lemma handlePointer_flagInv (g : Geom) (col : Nat) (s : GameState)
    (h : FlagInv s) : FlagInv ((handlePointer g col s).1) := by
  rcases guard_dichotomy s with hfail | ⟨hrun, hp, hgo⟩
  · rw [handlePointer_noop g col s hfail]; exact h
  · rw [handlePointer_run g col s hrun hp hgo]
    cases hfind : s.tiles.find? (tapMatch g col) with
    | some t =>
      simp only [hfind]
      simp [FlagInv, doHit_fst_paused, doHit_fst_running, doHit_fst_gameOver, hp, hgo]
    | none =>
      simp only [hfind]
      rw [doGameOver_eq s hgo]
      simp [FlagInv, hp]

lemma pauseToggle_flagInv (s : GameState) (h : FlagInv s) : FlagInv (pauseToggle s) := by
  unfold pauseToggle
  split
  · exact h
  · next hguard =>
    simp only [Bool.or_eq_true, Bool.not_eq_true'] at hguard
    push_neg at hguard
    obtain ⟨hgo, hrun⟩ := hguard
    split
    · simp [FlagInv, hgo]
    · simp [FlagInv, hgo, hrun]

lemma reachable_flagInv (g : Geom) (s : GameState) (h : Reachable g s) : FlagInv s := by
  induction h with
  | init loadedHigh => simp [FlagInv, newState]
  | step c s hs ih =>
    cases c with
    | advance dt now rid col => exact update_flagInv g dt now rid col s ih
    | tap col => exact handlePointer_flagInv g col s ih
    | pause => exact pauseToggle_flagInv s ih
    | start loadedHigh now => simp [stepCmd, FlagInv, startGame, newState]

/-- C9: in every reachable session state exactly one of the four lifecycle
states Idle, Running, Paused, GameOver holds, in the encoding by the three
booleans running, paused, gameOver; in particular paused and gameOver are
never simultaneously true and gameOver implies not running. -/
theorem C9_lifecycle (g : Geom) (s : GameState) (h : Reachable g s) :
    (IdleS s ∨ RunningS s ∨ PausedS s ∨ GameOverS s) ∧
    ¬ (IdleS s ∧ RunningS s) ∧ ¬ (IdleS s ∧ PausedS s) ∧ ¬ (IdleS s ∧ GameOverS s) ∧
    ¬ (RunningS s ∧ PausedS s) ∧ ¬ (RunningS s ∧ GameOverS s) ∧
    ¬ (PausedS s ∧ GameOverS s) ∧
    ¬ (s.paused = true ∧ s.gameOver = true) ∧
    (s.gameOver = true → s.running = false) := by
  obtain ⟨h1, h2⟩ := reachable_flagInv g s h
  cases hb : s.running <;> cases hpp : s.paused <;> cases hgg : s.gameOver <;>
    simp_all [IdleS, RunningS, PausedS, GameOverS]

/-- C9 witness: the fresh session is reachable and sits in exactly one
lifecycle state (Idle). -/
theorem C9_lifecycle_witness :
    (IdleS (newState 0) ∨ RunningS (newState 0) ∨ PausedS (newState 0) ∨
      GameOverS (newState 0)) ∧
    ¬ (IdleS (newState 0) ∧ RunningS (newState 0)) ∧
    ¬ (IdleS (newState 0) ∧ PausedS (newState 0)) ∧
    ¬ (IdleS (newState 0) ∧ GameOverS (newState 0)) ∧
    ¬ (RunningS (newState 0) ∧ PausedS (newState 0)) ∧
    ¬ (RunningS (newState 0) ∧ GameOverS (newState 0)) ∧
    ¬ (PausedS (newState 0) ∧ GameOverS (newState 0)) ∧
    ¬ ((newState 0).paused = true ∧ (newState 0).gameOver = true) ∧
    ((newState 0).gameOver = true → (newState 0).running = false) :=
  C9_lifecycle G0 (newState 0) (Reachable.init 0)

/-- C10: the miss check of an advance call considers only unhit tiles:
while Running, if every post-motion tile past the miss threshold has its
hit flag set, the call does not end the session, and its result is the
post-motion tile list with exactly the removal-flagged tiles
garbage-collected — a hit tile arbitrarily far past the hit line neither
ends the run nor is dropped before its removal flag is set. -/
theorem C10_hit_tiles_safe (g : Geom) (dt now : ℚ) (rid col : Nat) (s : GameState)
    (hrun : s.running = true) (hp : s.paused = false) (hgo : s.gameOver = false)
    (hsafe : ∀ t ∈ postMoveTiles g dt now rid col s,
      g.hitY + HIT_WINDOW + g.tileH < t.y → t.hit = true) :
    (update g dt now rid col s).gameOver = false ∧
    (update g dt now rid col s).running = true ∧
    (update g dt now rid col s).tiles =
      (postMoveTiles g dt now rid col s).filter (fun t => !t.removed) := by
  rw [update_run g dt now rid col s hrun hp hgo]
  have hany : (postMoveTiles g dt now rid col s).any (missed g) = false := by
    rw [List.any_eq_false]
    intro t ht
    by_cases hy : g.hitY + HIT_WINDOW + g.tileH < t.y
    · simp [missed, hsafe t ht hy]
    · simp [missed, hy]
  rw [if_neg (by simp [hany])]
  refine ⟨?_, ?_, rfl⟩
  · simp [spawnStep_gameOver, hgo]
  · simp [spawnStep_running, hrun]

/-- C10 witness: an advance over the session whose only tile is the hit
`farTile` (500 px, far past the miss threshold 436) keeps the session
running and keeps the tile. -/
theorem C10_hit_tiles_safe_witness :
    (update G0 0 0 0 0 sHitFar).gameOver = false ∧
    (update G0 0 0 0 0 sHitFar).running = true ∧
    (update G0 0 0 0 0 sHitFar).tiles =
      (postMoveTiles G0 0 0 0 0 sHitFar).filter (fun t => !t.removed) :=
  C10_hit_tiles_safe G0 0 0 0 0 sHitFar rfl rfl rfl
    (by
      intro t ht hy
      norm_num [postMoveTiles, spawnStep, spawnTile, stepElapsed, moveTile, sHitFar, sRun,
        newState, farTile, INITIAL_SPAWN_INTERVAL] at ht
      simp [ht])

end RhythmRush
